import Mathlib

/-!
# WebRecon core engine: shallow embedding and verification

This file embeds the scan-execution engine of the WebRecon repository in
Lean 4 and proves (or refutes) the frozen specification claims about it.

The embedded source files are:
* `scanners/base_scanner.py` — `ScanManager` / `Scanner` (cache load and
  persist, resume slicing of the wordlist, progress status updates, abort).
* `scanners/content_scanner.py` — `ContentScanner` (worker loop, persist
  with full rewrite, display count multiplier).
* `WebRecon/scanners/subdomain_scanner.py` — `DNSScanner` (worker loop,
  unknown-fault handler).
* `WebRecon/scanners/utils/output_manager.py` — `OutputManager` (dashboard
  block registry and rendered-line bookkeeping).
* `WebRecon/WebRecon.py` — orchestrator scan-name parsing.

Pure functions of the Python code become Lean functions; stateful code is
passed its state explicitly and returns the updated state; code that can
raise returns `Option`.  File contents (wordlist, results artifact, cache
document) are modelled as the values read from or written to disk; the
hash function is an arbitrary parameter where the code calls
`get_filehash`.
-/

namespace WebRecon

/-! ## String helpers

`pyStrip c s` models Python `s.strip(c)` for a single character `c`:
it removes every leading and trailing occurrence of `c`.
`pyLjust` models `str.ljust(width, fill)`. -/

def pyStrip (c : Char) (s : String) : String :=
  String.mk (((s.data.dropWhile (· = c)).reverse.dropWhile (· = c)).reverse)

def pyLjust (s : String) (width : Nat) (fill : Char) : String :=
  s ++ String.mk (List.replicate (width - s.length) fill)

/-! ## Resume slicing (`Scanner.load_words`, scanners/base_scanner.py:263-272)

```python
with open(self.wordlist_path, 'r') as wl:
    words = queue.Queue()
    for word in wl.readlines()[max(self._cache_dict.get("finished", 0) - 1, 0):]:
        words.put(word.strip("\n"))
return words
```

`lines` is the list returned by `readlines()` (one string per wordlist
line) and `finished` the cache-reported finished count.  The queue is
modelled as the list of tokens in the order they are put. -/

def loadWords (lines : List String) (finished : Nat) : List String :=
  (lines.drop (max ((finished : Int) - 1) 0).toNat).map (pyStrip '\n')

/-! ## Cache records (`ScanManager`, scanners/base_scanner.py)

`CacheRecord` is one entry of the cache document's `scanners` map, as
produced by `_init_cache_scanner_dict` (lines 165-172).  Timestamps and
the current time are integers (seconds); `hash` values are strings. -/

structure CacheRecord where
  wordlist_filehash : String
  results_filehash : String
  finished : Nat
  run_id : String
  timestamp : Int
  deriving Repr, DecidableEq

/-- The data `_load_cache_if_exists` consults besides the stored record:
the live hashes (`get_filehash` of the results artifact and of the
wordlist), the current time, the configured maximum age
(`CacheDefaultParams.CacheMaxAge`), and the process-wide
`ScanManager._RUN_ID`. -/
structure CacheEnv where
  liveResultsHash : String
  liveWordlistHash : String
  now : Int
  maxAge : Int
  currentRunId : String
  deriving Repr, DecidableEq

/-- The four-way trust check of `_load_cache_if_exists`
(scanners/base_scanner.py:128-131):

```python
if results_filehash == get_filehash(self._get_results_fullpath()) and \
        wordlist_filehash == get_filehash(os.path.join(self.wordlist_path)) and \
        time.time() - scan_cache.get("timestamp", 0) < CacheDefaultParams.CacheMaxAge and \
        run_id != ScanManager._RUN_ID:
``` -/
def cacheTrusted (rec : CacheRecord) (env : CacheEnv) : Bool :=
  rec.results_filehash == env.liveResultsHash
    && rec.wordlist_filehash == env.liveWordlistHash
    && (env.now - rec.timestamp < env.maxAge)
    && rec.run_id != env.currentRunId

/-- `_init_cache_scanner_dict` (scanners/base_scanner.py:165-172): the
fresh record seeded with the hash of the current wordlist and the current
time. -/
def initCacheScannerDict (env : CacheEnv) : CacheRecord :=
  { wordlist_filehash := env.liveWordlistHash
    results_filehash := ""
    finished := 0
    run_id := env.currentRunId
    timestamp := env.now }

/-- Outcome of reading the cache document and looking up this scanner's
record (`_load_cache_if_exists`, scanners/base_scanner.py:114-142):
`none` models any read or parse exception (the bare `except Exception`),
`some none` a readable document with no record for this scanner (or a
missing cache file, which the code creates fresh), and `some (some rec)`
a stored record. -/
abbrev CacheReadOutcome := Option (Option CacheRecord)

/-- `_load_cache_if_exists`: returns the `_use_prev_cache` flag and the
record the scanner continues with.  On trust the stored record's
`run_id` is rewritten to the current RunID; every other path falls
through to `_init_cache_scanner_dict`.  The function is total: no path
raises. -/
def loadCacheIfExists (env : CacheEnv) (ro : CacheReadOutcome) : Bool × CacheRecord :=
  match ro with
  | some (some rec) =>
      if cacheTrusted rec env then
        (true, { rec with run_id := env.currentRunId })
      else
        (false, initCacheScannerDict env)
  | _ => (false, initCacheScannerDict env)

/-! ## Persisting results and cache progress
(`_save_results` scanners/base_scanner.py:89-95,
`_update_cache_results` scanners/base_scanner.py:97-105,
`ContentScanner._save_results` scanners/content_scanner.py:40-47)

`_save_results(results, mode)` writes `results` to the results artifact
(append or overwrite) and then `_update_cache_results` recomputes the
results hash, stores it into the scanner's cache record, and writes the
record back into the cache document's `scanners` map under the scanner's
name.  Everything happens under the one global `_CACHE_MUTEX`; the state
below is the combined on-disk and in-memory state the operation reads and
writes.  The `ContentScanner` (the scan kind that both supports the cache
and writes results) always persists with mode `'w'`, regenerating the
whole artifact from `self.ret_results`. -/

inductive WriteMode where
  | append
  | overwrite
  deriving Repr, DecidableEq

/-- Python `dict` assignment `scanners[name] = rec` on an association
list: replace in place if the key exists, otherwise add at the end. -/
def updateScanner : List (String × CacheRecord) → String → CacheRecord →
    List (String × CacheRecord)
  | [], name, rec => [(name, rec)]
  | (k, v) :: rest, name, rec =>
      if k = name then (k, rec) :: rest else (k, v) :: updateScanner rest name rec

/-- State touched by a persist: the results artifact's content, the
scanner's in-memory `_cache_dict`, and the cache document (its
`target_url` field and `scanners` map). -/
structure PersistState where
  resultsFile : String
  cacheDict : CacheRecord
  targetUrl : String
  cacheScanners : List (String × CacheRecord)
  deriving Repr, DecidableEq

/-- `_save_results` followed by the `_update_cache_results` it performs,
with `_WRITE_RESULTS` and `_supports_cache()` both true.  `hash` stands
for `get_filehash` applied to a file's content. -/
def saveResults (hash : String → String) (name : String) (st : PersistState)
    (results : String) (mode : WriteMode) : PersistState :=
  let file := match mode with
    | .overwrite => results
    | .append => st.resultsFile ++ results
  let dict := { st.cacheDict with results_filehash := hash file }
  { resultsFile := file
    cacheDict := dict
    targetUrl := st.targetUrl
    cacheScanners := updateScanner st.cacheScanners name dict }

/-- `ContentScanner._save_results` renders `self.ret_results` to one
string: per status code, the code line, every url on its own line, then a
separator. -/
def renderResults (retResults : List (String × List String)) : String :=
  retResults.foldl
    (fun acc entry =>
      acc ++ entry.1 ++ " status code\n\n"
        ++ String.join (entry.2.map (fun url => url ++ "\n"))
        ++ "\n\n================================\n\n")
    ""

/-- The persist operation of the cached scan kind: `ContentScanner`
regenerates the artifact from its result map and writes with mode `'w'`
(scanners/content_scanner.py:47). -/
def contentPersist (hash : String → String) (name : String) (st : PersistState)
    (retResults : List (String × List String)) : PersistState :=
  saveResults hash name st (renderResults retResults) WriteMode.overwrite

/-! ## Progress status updates
(`_update_progress_status`, scanners/base_scanner.py:208-226)

```python
with self._current_progress_mutex:
    progress = (100 * finished_c) // total_c
    with ScanManager._CACHE_MUTEX:
        self._cache_dict["finished"] = finished_c
    if progress % OutputProgBarParams.ProgBarIntvl == 0 and progress > self._current_progress_perc or \
            force_update:
        ...log Progress...
        self._current_progress_perc = progress
        force_update = True
    left = self._count_multiplier * (total_c - finished_c)
    if finished_c % OutputProgBarParams.ProgLeftIntvl == 0 or left == 0 or force_update:
        ...log Current...
        ...log Left: f-string with multiplier*total - multiplier*finished out of multiplier*total...
```

The `OutputProgBarParams` constants live in the (external) defaults
module and are kept as parameters; in the program they are positive.
Arithmetic is over `Int` where Python subtraction may go negative.
If `total_c = 0` Python raises `ZeroDivisionError` before any state
change, modelled as `none`. -/

structure ProgressParams where
  progBarIntvl : Nat
  progressMod : Nat
  progressMax : Nat
  progLeftIntvl : Nat
  deriving Repr, DecidableEq

/-- The scanner state `_update_progress_status` reads and writes:
`_cache_dict["finished"]`, `_current_progress_perc`, and the
`_count_multiplier` (set once at construction; `ContentScanner` adds the
number of extension variants, scanners/content_scanner.py:36-37). -/
structure ProgressState where
  cacheFinished : Nat
  currentProgressPerc : Nat
  countMultiplier : Nat
  deriving Repr, DecidableEq

/-- Dashboard updates emitted by one `_update_progress_status` call:
the progress bar string, the current-item string, and the two numbers of
the `Left` line (`remaining out of total`). -/
structure ProgressEmits where
  progressBar : Option String
  currentItem : Option String
  leftDisplay : Option (Int × Int)
  deriving Repr, DecidableEq

/-- `prog_str = f"[{('#' * prog_count).ljust(ProgressMax, '-')}]"` with
`prog_count = progress // ProgressMod`. -/
def progressBarString (p : ProgressParams) (progress : Nat) : String :=
  "[" ++ pyLjust (String.mk (List.replicate (progress / p.progressMod) '#'))
          p.progressMax '-' ++ "]"

/-- The guard of the progress-bar update:
`progress % ProgBarIntvl == 0 and progress > self._current_progress_perc
or force_update` (Python precedence: the `and` binds tighter). -/
def progBarCond (p : ProgressParams) (perc progress : Nat) (forceUpdate : Bool) : Prop :=
  (progress % p.progBarIntvl = 0 ∧ perc < progress) ∨ forceUpdate = true

instance (p : ProgressParams) (perc progress : Nat) (forceUpdate : Bool) :
    Decidable (progBarCond p perc progress forceUpdate) := by
  unfold progBarCond; infer_instance

/-- The guard of the Current/Left update when `force_update` is (still)
false: `finished_c % ProgLeftIntvl == 0 or left == 0` with
`left = self._count_multiplier * (total_c - finished_c)`. -/
def leftCond (p : ProgressParams) (mult finishedC totalC : Nat) : Prop :=
  finishedC % p.progLeftIntvl = 0 ∨ (mult : Int) * ((totalC : Int) - (finishedC : Int)) = 0

instance (p : ProgressParams) (mult finishedC totalC : Nat) :
    Decidable (leftCond p mult finishedC totalC) := by
  unfold leftCond; infer_instance

def updateProgressStatus (p : ProgressParams) (st : ProgressState)
    (finishedC totalC : Nat) (current : String) (forceUpdate : Bool) :
    Option (ProgressState × ProgressEmits) :=
  if totalC = 0 then none
  else
    let progress := 100 * finishedC / totalC
    if progBarCond p st.currentProgressPerc progress forceUpdate then
      -- the bar branch sets force_update = True, so Current and Left always follow
      some ({ cacheFinished := finishedC, currentProgressPerc := progress,
              countMultiplier := st.countMultiplier },
            { progressBar := some (progressBarString p progress),
              currentItem := some current,
              leftDisplay := some
                ((st.countMultiplier : Int) * totalC - (st.countMultiplier : Int) * finishedC,
                 (st.countMultiplier : Int) * totalC) })
    else
      if leftCond p st.countMultiplier finishedC totalC then
        some ({ cacheFinished := finishedC, currentProgressPerc := st.currentProgressPerc,
                countMultiplier := st.countMultiplier },
              { progressBar := none,
                currentItem := some current,
                leftDisplay := some
                  ((st.countMultiplier : Int) * totalC - (st.countMultiplier : Int) * finishedC,
                   (st.countMultiplier : Int) * totalC) })
      else
        some ({ cacheFinished := finishedC, currentProgressPerc := st.currentProgressPerc,
                countMultiplier := st.countMultiplier },
              { progressBar := none, currentItem := none, leftDisplay := none })

/-! ## Unknown-fault handlers (C3)

The worker loops run as `threading.Thread` targets
(`ContentScanner._start_scanner` scanners/content_scanner.py:105-114,
`DNSScanner._start_scanner` WebRecon/scanners/subdomain_scanner.py:65-74).

* `ContentScanner.single_bruter`'s `except Exception` handler
  (scanners/content_scanner.py:95-96) calls `ScanManager.abort_scan`
  (scanners/base_scanner.py:228-233), which sets
  `ScanManager._SHOULD_ABORT = True` and then `os.kill(os.getpid(), 9)`
  — SIGKILL to the whole process.
* `DNSScanner.single_bruter`'s `except Exception` handler
  (WebRecon/scanners/subdomain_scanner.py:56-60) sets
  `ScanManager._SHOULD_ABORT = True` and then calls `exit(-1)`.
  `exit` raises `SystemExit`; inside a non-main `threading.Thread`,
  `SystemExit` is caught by the thread bootstrap and terminates only
  that worker thread — the process keeps running.

The handlers' effects are modelled as data: whether the abort signal is
set, and the scope of the termination the handler performs. -/

inductive TermScope where
  | wholeProcess
  | workerThread
  deriving Repr, DecidableEq

structure FaultResponse where
  setsAbortSignal : Bool
  scope : TermScope
  deriving Repr, DecidableEq

/-- `ScanManager.abort_scan` (scanners/base_scanner.py:228-233):
`_SHOULD_ABORT = True`, then `os.kill(os.getpid(), 9)`. -/
def abortScanResponse : FaultResponse :=
  { setsAbortSignal := true, scope := TermScope.wholeProcess }

/-- The scanner variants whose worker loops have an unclassified-fault
handler. -/
inductive ScannerVariant where
  | contentScanner
  | dnsScanner
  deriving Repr, DecidableEq

/-- What each variant's `except Exception` worker handler does. -/
def unknownFaultResponse : ScannerVariant → FaultResponse
  | .contentScanner => abortScanResponse
  | .dnsScanner => { setsAbortSignal := true, scope := TermScope.workerThread }

/-! ## Worker pools and the abort signal (C4)

Both worker loops guard every iteration with

```python
while not self.words_queue.empty() and not ScanManager._SHOULD_ABORT:
    ... = self.words_queue.get()
```

(scanners/content_scanner.py:51-52,
WebRecon/scanners/subdomain_scanner.py:43-44), i.e. the signal is
observed before a token is taken; an iteration whose guard fails exits
the loop.  `_SHOULD_ABORT` starts `False` and is only ever assigned
`True` (`abort_scan`, `DNSScanner.single_bruter`'s handler,
`Scanner.start_scanner`'s handler) — a one-way transition.

The system state holds the shared flag, one token queue per pool, and
the total number of tokens dequeued so far.  Events are: some component
sets the abort signal, or one worker iteration of pool `i` runs
(iterations are atomic units — cancellation is cooperative and checked
only between units, never mid-unit). -/

structure PoolSystem where
  shouldAbort : Bool
  queues : List (List String)
  dequeCount : Nat
  deriving Repr, DecidableEq

inductive PoolEvent where
  | setAbort
  | workerIter (pool : Nat)
  deriving Repr, DecidableEq

def poolStep (s : PoolSystem) : PoolEvent → PoolSystem
  | .setAbort => { s with shouldAbort := true }
  | .workerIter i =>
      let q := s.queues.getD i []
      if q ≠ [] ∧ s.shouldAbort = false then
        { s with queues := s.queues.set i q.tail, dequeCount := s.dequeCount + 1 }
      else
        s

def poolRun (s : PoolSystem) (es : List PoolEvent) : PoolSystem :=
  es.foldl poolStep s

/-! ## The dashboard block registry (C5, C10)
(`OutputManager`, WebRecon/scanners/utils/output_manager.py)

`_OUTPUT_CONT` maps each of the two output types to a dict from source
name to block content; `_OUTPUT_LEN` is the explicitly tracked total
rendered line count.  `_flush` renders, per block, a delimiter line, the
source name line and one line per content entry, so a block's rendered
size is `2 + ` its content length.

`insert_output` (lines 33-49): no-op when the name is already registered;
a Lines block is created as a deque of capacity `_DEF_MAXLEN = 3`
pre-filled with 3 empty strings, adding `_DEF_MAXLEN` to `_OUTPUT_LEN`;
a Status block stores a copy of the given keys, adding their number;
both then add 2 more for the delimiter and source-name lines.  An empty
key set for a Status block raises before any state change.

`remove_output` (lines 51-57): when registered, takes
`len(_OUTPUT_CONT[type][name])` (the content length only), pops the
block, and subtracts that length from `_OUTPUT_LEN`.

`update_lines` (lines 66-71) appends to the named deque; at capacity the
deque evicts its oldest entry.  (A missing name raises `KeyError` before
any state change.) -/

def defMaxLen : Nat := 3

inductive OutputKind where
  | status
  | lines
  deriving Repr, DecidableEq

structure OutputState where
  statusBlocks : List (String × List (String × String))
  linesBlocks : List (String × List String)
  outputLen : Nat
  deriving Repr, DecidableEq

def initialOutputState : OutputState :=
  { statusBlocks := [], linesBlocks := [], outputLen := 0 }

/-- `dict.pop(name)` on an association list. -/
def popBlock {α : Type} : List (String × α) → String → List (String × α)
  | [], _ => []
  | (k, v) :: rest, name =>
      if k = name then rest else (k, v) :: popBlock rest name

/-- In-place update of the named block's content. -/
def modifyBlock {α : Type} : List (String × α) → String → (α → α) → List (String × α)
  | [], _, _ => []
  | (k, v) :: rest, name, f =>
      if k = name then (k, f v) :: rest else (k, v) :: modifyBlock rest name f

def insertOutput (st : OutputState) (name : String) (kind : OutputKind)
    (statusKeys : List (String × String)) : OutputState :=
  match kind with
  | .lines =>
      if (st.linesBlocks.lookup name).isSome then st
      else
        { st with
          linesBlocks := st.linesBlocks ++ [(name, List.replicate defMaxLen "")]
          outputLen := st.outputLen + defMaxLen + 2 }
  | .status =>
      if (st.statusBlocks.lookup name).isSome then st
      else if statusKeys = [] then st  -- raises "missing keys" before mutating
      else
        { st with
          statusBlocks := st.statusBlocks ++ [(name, statusKeys)]
          outputLen := st.outputLen + statusKeys.length + 2 }

def removeOutput (st : OutputState) (name : String) (kind : OutputKind) : OutputState :=
  match kind with
  | .lines =>
      match st.linesBlocks.lookup name with
      | none => st
      | some entries =>
          { st with
            linesBlocks := popBlock st.linesBlocks name
            outputLen := st.outputLen - entries.length }
  | .status =>
      match st.statusBlocks.lookup name with
      | none => st
      | some keys =>
          { st with
            statusBlocks := popBlock st.statusBlocks name
            outputLen := st.outputLen - keys.length }

/-- `deque(maxlen=cap).append(line)`: keeps the last `cap` entries. -/
def dequeAppend (cap : Nat) (entries : List String) (line : String) : List String :=
  let l := entries ++ [line]
  if cap < l.length then l.drop (l.length - cap) else l

def updateLines (st : OutputState) (name line : String) : OutputState :=
  if (st.linesBlocks.lookup name).isSome then
    { st with linesBlocks :=
        modifyBlock st.linesBlocks name (fun d => dequeAppend defMaxLen d line) }
  else st  -- raises KeyError before mutating

/-- The number of lines `_flush` actually renders for the currently
registered blocks: per block a delimiter, the source name, and one line
per content entry. -/
def totalRendered (st : OutputState) : Nat :=
  (st.statusBlocks.map (fun b => 2 + b.2.length)).sum
    + (st.linesBlocks.map (fun b => 2 + b.2.length)).sum

/-! ## Orchestrator scan-name parsing (C9)
(`WebRecon._parse_scan_list` WebRecon/WebRecon.py:101-109,
`_SCANNAME_TO_METHOD_MAP` WebRecon/WebRecon.py:47-52)

```python
_SCANNAME_TO_METHOD_MAP = {
    ScannerNames.DnsScan: None,
    ScannerNames.ContentScan: ContentScanner,
    ScannerNames.BypassScan: None,
    ScannerNames.NmapScan: NmapScanner
}

def _parse_scan_list(self, scan_list):
    scans = list()
    for scan_name in scan_list:
        if scan_name not in self._SCANNAME_TO_METHOD_MAP:
            raise Exception("Bad scanner name")
        scanner = self._SCANNAME_TO_METHOD_MAP.get(scan_name)
        if scanner:
            scans.append(scanner)
    return scans
```

The `ScannerNames` string values come from the external defaults module;
per the specification's name set they are "dns", "content", "bypass" and
"nmap".  `dns` enables subdomain discovery (`dns_recursion`,
WebRecon/WebRecon.py:75) and `bypass` enables bypass probing (`do_bypass`,
WebRecon/WebRecon.py:89); neither maps to a launched per-target scanner. -/

inductive ScannerKind where
  | contentScanner
  | nmapScanner
  deriving Repr, DecidableEq

def scanNameToMethodMap : List (String × Option ScannerKind) :=
  [("dns", none), ("content", some ScannerKind.contentScanner),
   ("bypass", none), ("nmap", some ScannerKind.nmapScanner)]

def knownScanNames : List String := ["dns", "content", "bypass", "nmap"]

def parseScanList : List String → Except String (List ScannerKind)
  | [] => Except.ok []
  | name :: rest =>
      match scanNameToMethodMap.lookup name with
      | none => Except.error "Bad scanner name"
      | some none => parseScanList rest
      | some (some k) => (parseScanList rest).map (fun ks => k :: ks)

/-- `dns_recursion = ScannerNames.DnsScan in self._all_scans`
(WebRecon/WebRecon.py:75). -/
def dnsRecursion (allScans : List String) : Bool := allScans.contains "dns"

/-- `do_bypass = ScannerNames.BypassScan in self._all_scans`
(WebRecon/WebRecon.py:89). -/
def doBypass (allScans : List String) : Bool := allScans.contains "bypass"

/-! ## Helper lemmas -/

lemma maxIntOne_toNat (F : Nat) : (max ((F : Int) - 1) 0).toNat = F - 1 := by
  omega

lemma updateScanner_idem (s : List (String × CacheRecord)) (name : String)
    (rec : CacheRecord) :
    updateScanner (updateScanner s name rec) name rec = updateScanner s name rec := by
  induction s with
  | nil => simp [updateScanner]
  | cons hd tl ih =>
      obtain ⟨k, v⟩ := hd
      by_cases h : k = name
      · simp [updateScanner, h]
      · simp [updateScanner, h, ih]

/-! ## Claim theorems -/

/-- C1.  For a wordlist of `K` lines and a cache-reported finished count
`F` with `0 ≤ F ≤ K`, `Scanner.load_words` builds the queue as the
suffix of the wordlist starting at index `max(F-1, 0)` (each token
stripped of newlines, as the code does per line), so its length is the
fixed value `K - max(F-1, 0)`, never exceeds `K`, and for `F ≥ 1` equals
`K - F + 1`: exactly one already-completed token (index `F-1`) is
reprocessed.  Over `Nat`, `F - 1` coincides with Python's
`max(F - 1, 0)` (see `maxIntOne_toNat`). -/
theorem C1_resumed_queue_is_suffix (lines : List String) (F : Nat)
    (hF : F ≤ lines.length) :
    loadWords lines F = (lines.drop (F - 1)).map (pyStrip '\n') ∧
    (loadWords lines F).length = lines.length - (F - 1) ∧
    (loadWords lines F).length ≤ lines.length ∧
    (1 ≤ F → (loadWords lines F).length = lines.length - F + 1) := by
  unfold loadWords
  rw [maxIntOne_toNat]
  refine ⟨rfl, ?_, ?_, fun h1 => ?_⟩ <;>
    simp only [List.length_map, List.length_drop] <;> omega

theorem C1_resumed_queue_is_suffix_witness :
    2 ≤ (["aa\n", "bb\n", "cc\n"] : List String).length ∧
    (loadWords ["aa\n", "bb\n", "cc\n"] 2
        = ((["aa\n", "bb\n", "cc\n"] : List String).drop (2 - 1)).map (pyStrip '\n') ∧
      (loadWords ["aa\n", "bb\n", "cc\n"] 2).length
        = (["aa\n", "bb\n", "cc\n"] : List String).length - (2 - 1) ∧
      (loadWords ["aa\n", "bb\n", "cc\n"] 2).length
        ≤ (["aa\n", "bb\n", "cc\n"] : List String).length ∧
      (1 ≤ 2 → (loadWords ["aa\n", "bb\n", "cc\n"] 2).length
        = (["aa\n", "bb\n", "cc\n"] : List String).length - 2 + 1)) :=
  ⟨by decide, C1_resumed_queue_is_suffix ["aa\n", "bb\n", "cc\n"] 2 (by decide)⟩

/-- C2.  `_load_cache_if_exists` trusts a stored record if and only if
all four checks hold: stored results hash equals the live results
hash, stored wordlist hash equals the live wordlist hash, the record's
age is under the configured maximum, and the stored run id differs from
the current RunID.  The `iff` also gives that the failure of any single
check (the other three holding) makes the record untrusted. -/
theorem C2_cache_trust_iff (rec : CacheRecord) (env : CacheEnv) :
    cacheTrusted rec env = true ↔
      (rec.results_filehash = env.liveResultsHash ∧
       rec.wordlist_filehash = env.liveWordlistHash ∧
       env.now - rec.timestamp < env.maxAge ∧
       rec.run_id ≠ env.currentRunId) := by
  simp [cacheTrusted, and_assoc]

/-- C6.  On every cache read/parse failure (`none`), missing record
(`some none`), or stored record failing the trust check, load raises
nothing (the function is total) and returns `_use_prev_cache = false`
together with a fresh record whose wordlist hash is the hash of the
current wordlist, whose finished count is `0`, whose run id is the
current RunID, and whose timestamp is the current time. -/
theorem C6_load_failure_returns_fresh (env : CacheEnv) (ro : CacheReadOutcome)
    (h : ∀ rec : CacheRecord, ro = some (some rec) → cacheTrusted rec env = false) :
    loadCacheIfExists env ro =
      (false,
       { wordlist_filehash := env.liveWordlistHash
         results_filehash := ""
         finished := 0
         run_id := env.currentRunId
         timestamp := env.now }) := by
  match ro with
  | none => rfl
  | some none => rfl
  | some (some rec) =>
      have hfalse := h rec rfl
      simp [loadCacheIfExists, hfalse, initCacheScannerDict]

theorem C6_load_failure_returns_fresh_witness :
    loadCacheIfExists ⟨"rhash", "whash", 100, 10, "run1"⟩ none =
      (false,
       { wordlist_filehash := "whash"
         results_filehash := ""
         finished := 0
         run_id := "run1"
         timestamp := 100 }) :=
  C6_load_failure_returns_fresh ⟨"rhash", "whash", 100, 10, "run1"⟩ none
    (fun _ h => by cases h)

/-- C7.  Persisting is idempotent: for every hash function, scanner
name, state (hence every target and finished count) and result map, the
cached scan kind's persist (`ContentScanner._save_results`, a full
rewrite followed by `_update_cache_results`) performed twice with the
same results content yields exactly the same results artifact and cache
document as performing it once. -/
theorem C7_persist_idempotent (hash : String → String) (name : String)
    (st : PersistState) (retResults : List (String × List String)) :
    contentPersist hash name (contentPersist hash name st retResults) retResults =
      contentPersist hash name st retResults := by
  simp [contentPersist, saveResults, updateScanner_idem]

/-- C3 (code bug).  The claim says every scanner variant's unclassified
in-worker fault handler sets the AbortSignal and terminates the whole
process.  `ContentScanner` does (`abort_scan` → `os.kill(os.getpid(), 9)`),
and both handlers set the signal, but `DNSScanner.single_bruter`'s
handler ends with `exit(-1)`: inside a `threading.Thread` worker the
resulting `SystemExit` terminates only that thread, not the process. -/
theorem C3_dns_unknown_fault_kills_only_thread :
    (unknownFaultResponse ScannerVariant.contentScanner).setsAbortSignal = true ∧
    (unknownFaultResponse ScannerVariant.contentScanner).scope = TermScope.wholeProcess ∧
    (unknownFaultResponse ScannerVariant.dnsScanner).setsAbortSignal = true ∧
    (unknownFaultResponse ScannerVariant.dnsScanner).scope = TermScope.workerThread ∧
    (unknownFaultResponse ScannerVariant.dnsScanner).scope ≠ TermScope.wholeProcess := by
  decide

/-- C5 (code bug).  The claim says `_OUTPUT_LEN` always equals the sum
of the registered blocks' rendered sizes.  `insert_output` adds the
content size plus 2 (delimiter and source-name lines), but
`remove_output` subtracts only `len(_OUTPUT_CONT[type][name])` — the
content size.  After registering one rolling-log block and removing it
again, `_OUTPUT_LEN` is 2 while no block is registered (rendered sum 0). -/
theorem C5_remove_output_undercounts :
    (removeOutput (insertOutput initialOutputState "log" OutputKind.lines [])
        "log" OutputKind.lines).outputLen = 2 ∧
    totalRendered (removeOutput (insertOutput initialOutputState "log" OutputKind.lines [])
        "log" OutputKind.lines) = 0 ∧
    (insertOutput initialOutputState "log" OutputKind.lines []).outputLen = 5 ∧
    totalRendered (insertOutput initialOutputState "log" OutputKind.lines []) = 5 := by
  refine ⟨?_, ?_, ?_, ?_⟩ <;> rfl

lemma poolStep_aborted (s : PoolSystem) (h : s.shouldAbort = true) (e : PoolEvent) :
    poolStep s e = s := by
  obtain ⟨a, q, d⟩ := s
  cases e <;> simp_all [poolStep]

lemma poolRun_aborted (s : PoolSystem) (h : s.shouldAbort = true) (es : List PoolEvent) :
    poolRun s es = s := by
  induction es with
  | nil => rfl
  | cons e rest ih =>
      show List.foldl poolStep (poolStep s e) rest = s
      rw [poolStep_aborted s h e]
      exact ih

/-- C4.  Both worker loops guard each iteration with
`while not queue.empty() and not ScanManager._SHOULD_ABORT` before
calling `queue.get()`, and the flag is only ever set, never cleared.
Hence for every initial system state and every event trace: once a
`setAbort` event has occurred, the remaining events change nothing — in
particular no pool dequeues a further token, every subsequent iteration
observing the signal and exiting instead. -/
theorem C4_no_dequeue_after_abort (s : PoolSystem) (pre post : List PoolEvent) :
    poolRun s (pre ++ PoolEvent.setAbort :: post)
        = poolRun s (pre ++ [PoolEvent.setAbort]) ∧
    (poolRun s (pre ++ PoolEvent.setAbort :: post)).dequeCount
        = (poolRun s (pre ++ [PoolEvent.setAbort])).dequeCount := by
  have h1 : poolRun s (pre ++ PoolEvent.setAbort :: post)
      = poolRun (poolStep (poolRun s pre) PoolEvent.setAbort) post := by
    simp [poolRun, List.foldl_append]
  have h2 : poolRun s (pre ++ [PoolEvent.setAbort])
      = poolStep (poolRun s pre) PoolEvent.setAbort := by
    simp [poolRun, List.foldl_append]
  have h3 : (poolStep (poolRun s pre) PoolEvent.setAbort).shouldAbort = true := rfl
  constructor
  · rw [h1, h2, poolRun_aborted _ h3]
  · rw [h1, h2, poolRun_aborted _ h3]

lemma lookup_scanNameToMethodMap_isSome (n : String) :
    (scanNameToMethodMap.lookup n).isSome = knownScanNames.contains n := by
  simp only [scanNameToMethodMap, knownScanNames, List.lookup, List.contains_cons,
    List.contains_nil]
  cases h1 : n == "dns" <;> cases h2 : n == "content" <;>
    cases h3 : n == "bypass" <;> cases h4 : n == "nmap" <;> simp [h1, h2, h3, h4]

/-- C9.  `_parse_scan_list` raises exactly when the list contains a name
outside the known set `{dns, content, bypass, nmap}` (the keys of
`_SCANNAME_TO_METHOD_MAP`); otherwise it returns, in order, the scanner
classes of the names mapped to a class — `dns` and `bypass` map to
`None` and are accepted without contributing a per-target scanner (they
only set `dns_recursion` resp. `do_bypass`), so only content and nmap
scanners are launched per target. -/
theorem C9_parse_scan_list_characterization (l : List String) :
    parseScanList l =
      (if l.all (fun n => knownScanNames.contains n) then
        Except.ok (l.filterMap (fun n => (scanNameToMethodMap.lookup n).join))
      else Except.error "Bad scanner name") ∧
    (l.filterMap (fun n => (scanNameToMethodMap.lookup n).join)).all
      (fun k => decide (k = ScannerKind.contentScanner ∨ k = ScannerKind.nmapScanner))
      = true ∧
    parseScanList ["dns", "bypass"] = Except.ok [] ∧
    dnsRecursion ["dns", "bypass"] = true ∧
    doBypass ["dns", "bypass"] = true := by
  refine ⟨?_, ?_, rfl, rfl, rfl⟩
  · induction l with
    | nil => rfl
    | cons n rest ih =>
        cases h : scanNameToMethodMap.lookup n with
        | none =>
            have hc : knownScanNames.contains n = false := by
              rw [← lookup_scanNameToMethodMap_isSome, h]; rfl
            simp only [parseScanList, h, List.all_cons, hc, Bool.false_and,
              Bool.false_eq_true, if_false]
        | some ok =>
            have hc : knownScanNames.contains n = true := by
              rw [← lookup_scanNameToMethodMap_isSome, h]; rfl
            cases ok with
            | none =>
                simp only [parseScanList, h, ih, List.all_cons, hc, Bool.true_and,
                  List.filterMap_cons, Option.join]
                rfl
            | some k =>
                simp only [parseScanList, h, ih, List.all_cons, hc, Bool.true_and,
                  List.filterMap_cons, Option.join]
                cases hall : rest.all (fun n => knownScanNames.contains n) with
                | false =>
                    simp only [hall, Bool.false_eq_true, if_false, Except.map]
                | true =>
                    simp only [hall, if_true, Except.map]
                    rfl
  · rw [List.all_eq_true]
    intro k _
    cases k <;> rfl

lemma dequeAppend_length (entries : List String) (line : String)
    (h : entries.length = defMaxLen) :
    (dequeAppend defMaxLen entries line).length = defMaxLen := by
  simp [dequeAppend, h, defMaxLen]

lemma dequeAppend_evicts (entries : List String) (line : String)
    (h : entries.length = defMaxLen) :
    dequeAppend defMaxLen entries line = entries.tail ++ [line] := by
  have h1 : (1 : Nat) ≤ entries.length := by rw [h]; decide
  simp only [dequeAppend]
  rw [if_pos (show defMaxLen < (entries ++ [line]).length by simp [h, defMaxLen])]
  have h2 : (entries ++ [line]).length - defMaxLen = 1 := by simp [h, defMaxLen]
  rw [h2, List.drop_append_of_le_length h1, List.drop_one]

lemma lookup_modifyBlock {α : Type} (l : List (String × α)) (name : String) (f : α → α) :
    (modifyBlock l name f).lookup name = (l.lookup name).map f := by
  induction l with
  | nil => simp [modifyBlock]
  | cons hd tl ih =>
      obtain ⟨k, v⟩ := hd
      by_cases hk : k = name
      · subst hk
        simp [modifyBlock, List.lookup]
      · have hk2 : (name == k) = false := by simp [Ne.symm hk]
        simp [modifyBlock, List.lookup, hk, hk2, ih]

lemma updateLines_lookup (st : OutputState) (name line : String) (entries : List String)
    (h : st.linesBlocks.lookup name = some entries) :
    (updateLines st name line).linesBlocks.lookup name
      = some (dequeAppend defMaxLen entries line) := by
  have hsome : (st.linesBlocks.lookup name).isSome = true := by rw [h]; rfl
  simp only [updateLines, hsome, if_pos]
  rw [lookup_modifyBlock, h]
  rfl

lemma foldl_updateLines_maintains (name : String) (appends : List String) :
    ∀ (st : OutputState) (entries : List String),
      st.linesBlocks.lookup name = some entries → entries.length = defMaxLen →
      ∃ e2,
        (appends.foldl (fun s line => updateLines s name line) st).linesBlocks.lookup name
          = some e2 ∧ e2.length = defMaxLen := by
  induction appends with
  | nil => exact fun st entries h hl => ⟨entries, h, hl⟩
  | cons a rest ih =>
      intro st entries h hl
      exact ih (updateLines st name a) (dequeAppend defMaxLen entries a)
        (updateLines_lookup st name a entries h) (dequeAppend_length entries a hl)

/-- C10.  A rolling-log dashboard block is registered already holding
exactly `_DEF_MAXLEN = 3` empty entries; after every sequence of
`update_lines` appends its entry count is still exactly `_DEF_MAXLEN`,
and one more append evicts the oldest entry (drops the head and appends
at the tail), keeping the rendered size constant. -/
theorem C10_rolling_log_constant_size (appends : List String) (x : String) :
    (insertOutput initialOutputState "log" OutputKind.lines []).linesBlocks.lookup "log"
      = some (List.replicate defMaxLen "") ∧
    ∃ entries,
      ((appends.foldl (fun s line => updateLines s "log" line)
          (insertOutput initialOutputState "log" OutputKind.lines []))).linesBlocks.lookup
        "log" = some entries ∧
      entries.length = defMaxLen ∧
      dequeAppend defMaxLen entries x = entries.tail ++ [x] := by
  refine ⟨rfl, ?_⟩
  obtain ⟨e2, he, hl⟩ := foldl_updateLines_maintains "log" appends
    (insertOutput initialOutputState "log" OutputKind.lines [])
    (List.replicate defMaxLen "") rfl (by simp)
  exact ⟨e2, he, hl, dequeAppend_evicts e2 x hl⟩

lemma updateProgressStatus_eq (p : ProgressParams) (cf perc mult F T : Nat)
    (cur : String) (force : Bool) (hT : ¬ T = 0) :
    updateProgressStatus p ⟨cf, perc, mult⟩ F T cur force =
      if progBarCond p perc (100 * F / T) force then
        some (⟨F, 100 * F / T, mult⟩,
              ⟨some (progressBarString p (100 * F / T)), some cur,
               some ((mult : Int) * T - (mult : Int) * F, (mult : Int) * T)⟩)
      else if leftCond p mult F T then
        some (⟨F, perc, mult⟩,
              ⟨none, some cur,
               some ((mult : Int) * T - (mult : Int) * F, (mult : Int) * T)⟩)
      else
        some (⟨F, perc, mult⟩, ⟨none, none, none⟩) := by
  unfold updateProgressStatus
  rw [if_neg hT]

lemma leftCond_pos_iff (p : ProgressParams) (m F T : Nat) (hm : 0 < m) :
    leftCond p m F T ↔ leftCond p 1 F T := by
  have hm0 : (m : Int) ≠ 0 := Int.natCast_ne_zero.mpr hm.ne'
  simp [leftCond, mul_eq_zero, hm0, sub_eq_zero]

/-- C8.  `_update_progress_status` always stores the raw logical
finished count into the cache record, for every multiplier value; and
(for the multipliers the program can have — `_count_multiplier` starts
at 1 and is only incremented, so it is positive) a run with multiplier
`m` differs from the run with multiplier 1 only in the displayed
Left values, which are exactly the raw remaining/total values each
scaled by `m`. -/
theorem C8_multiplier_affects_display_only (p : ProgressParams) (cf perc F T : Nat)
    (cur : String) (force : Bool) (m : Nat) (hT : 0 < T) (hm : 0 < m) :
    (∀ mult : Nat, ∃ st' e',
        updateProgressStatus p ⟨cf, perc, mult⟩ F T cur force = some (st', e') ∧
        st'.cacheFinished = F) ∧
    (∃ stm em st1 e1,
      updateProgressStatus p ⟨cf, perc, m⟩ F T cur force = some (stm, em) ∧
      updateProgressStatus p ⟨cf, perc, 1⟩ F T cur force = some (st1, e1) ∧
      stm.cacheFinished = F ∧ st1.cacheFinished = F ∧
      stm.currentProgressPerc = st1.currentProgressPerc ∧
      em.progressBar = e1.progressBar ∧
      em.currentItem = e1.currentItem ∧
      em.leftDisplay = e1.leftDisplay.map
        (fun pr => ((m : Int) * pr.1, (m : Int) * pr.2))) := by
  have hT0 : ¬ T = 0 := hT.ne'
  constructor
  · intro mult
    rw [updateProgressStatus_eq p cf perc mult F T cur force hT0]
    by_cases hb : progBarCond p perc (100 * F / T) force
    · rw [if_pos hb]; exact ⟨_, _, rfl, rfl⟩
    · rw [if_neg hb]
      by_cases hl : leftCond p mult F T
      · rw [if_pos hl]; exact ⟨_, _, rfl, rfl⟩
      · rw [if_neg hl]; exact ⟨_, _, rfl, rfl⟩
  · rw [updateProgressStatus_eq p cf perc m F T cur force hT0,
        updateProgressStatus_eq p cf perc 1 F T cur force hT0]
    by_cases hb : progBarCond p perc (100 * F / T) force
    · rw [if_pos hb, if_pos hb]
      refine ⟨_, _, _, _, rfl, rfl, rfl, rfl, rfl, rfl, rfl, ?_⟩
      simp only [Option.map]
      refine congrArg some (Prod.ext ?_ ?_) <;> push_cast <;> ring
    · rw [if_neg hb, if_neg hb]
      by_cases hl : leftCond p 1 F T
      · rw [if_pos ((leftCond_pos_iff p m F T hm).mpr hl), if_pos hl]
        refine ⟨_, _, _, _, rfl, rfl, rfl, rfl, rfl, rfl, rfl, ?_⟩
        simp only [Option.map]
        refine congrArg some (Prod.ext ?_ ?_) <;> push_cast <;> ring
      · rw [if_neg (fun hc => hl ((leftCond_pos_iff p m F T hm).mp hc)), if_neg hl]
        exact ⟨_, _, _, _, rfl, rfl, rfl, rfl, rfl, rfl, rfl, rfl⟩

theorem C8_multiplier_affects_display_only_witness :
    0 < 4 ∧ 0 < 3 ∧
    ((∀ mult : Nat, ∃ st' e',
        updateProgressStatus ⟨5, 5, 20, 100⟩ ⟨0, 0, mult⟩ 1 4 "w" false = some (st', e') ∧
        st'.cacheFinished = 1) ∧
     (∃ stm em st1 e1,
       updateProgressStatus ⟨5, 5, 20, 100⟩ ⟨0, 0, 3⟩ 1 4 "w" false = some (stm, em) ∧
       updateProgressStatus ⟨5, 5, 20, 100⟩ ⟨0, 0, 1⟩ 1 4 "w" false = some (st1, e1) ∧
       stm.cacheFinished = 1 ∧ st1.cacheFinished = 1 ∧
       stm.currentProgressPerc = st1.currentProgressPerc ∧
       em.progressBar = e1.progressBar ∧
       em.currentItem = e1.currentItem ∧
       em.leftDisplay = e1.leftDisplay.map
         (fun pr => (((3 : Nat) : Int) * pr.1, ((3 : Nat) : Int) * pr.2)))) :=
  ⟨by decide, by decide,
   C8_multiplier_affects_display_only ⟨5, 5, 20, 100⟩ 0 0 1 4 "w" false 3
     (by decide) (by decide)⟩

end WebRecon
